import Mathlib

/-!
Verification of the benchmark regression detection tool
(`scripts/compare_benchmarks.py`).

The Python source is shallowly embedded below: floats become `ℚ`,
Python dict records become a `Bench` structure with optional numeric
fields, the mutable `self.warnings` / `self.critical_issues` lists
become an explicit `CompState` threaded through the comparison
functions, and exceptions (`sys.exit`, `KeyError`) become `Except`.
Python string formatting (`:.1f`, `:+.2f`, `:15s`) is idealised as
exact fixed-point rendering of the rational value (round half to
even), which matches the float behaviour on the magnitudes involved.
-/

section RatReducible

attribute [local semireducible] Rat.add Rat.mul Rat.sub Rat.inv Rat.ofScientific

/-- A benchmark record of an input document.  A Python record is a dict
with a `name` string and optional numeric fields; records without a
`name` never match a lookup, so `name` is modelled as always present. -/
structure Bench where
  name : String
  cpu_time : Option ℚ
  bytes_per_second : Option ℚ
deriving DecidableEq, Repr

/-- The mutable comparator state: `self.warnings` and
`self.critical_issues`, both initialised to `[]`. -/
structure CompState where
  warnings : List String
  critical_issues : List String
deriving DecidableEq, Repr

/-- The class constant `REGRESSION_THRESHOLDS`. -/
def REGRESSION_THRESHOLDS : List (String × ℚ) :=
  [("core_latency_warning", 10/100),
   ("core_latency_critical", 25/100),
   ("safety_overhead_warning", 5/100),
   ("safety_overhead_critical", 15/100),
   ("throughput_warning", 15/100),
   ("throughput_critical", 30/100),
   ("memory_warning", 20/100),
   ("memory_critical", 50/100)]

/-- Dict lookup `REGRESSION_THRESHOLDS[key]` (all keys used by the
source are present, so the default is never taken on real inputs). -/
def threshold (key : String) : ℚ :=
  (REGRESSION_THRESHOLDS.lookup key).getD 0

/-- `_get_benchmark_by_name`: first record whose `name` matches. -/
def get_benchmark_by_name (benchmarks : List Bench) (name : String) : Option Bench :=
  benchmarks.find? (fun b => b.name = name)

/-- `_calculate_percentage_change`. -/
def calculate_percentage_change (baseline current : ℚ) : ℚ :=
  if baseline = 0 then 0
  else (current - baseline) / baseline

/-- `_assess_performance_change` (latency-polarity classification). -/
def assess_performance_change (change : ℚ) (category : String) : String :=
  let warning_threshold := threshold (category ++ "_warning")
  let critical_threshold := threshold (category ++ "_critical")
  if change > critical_threshold then "CRITICAL"
  else if change > warning_threshold then "WARNING"
  else if change < -(5/100 : ℚ) then "IMPROVEMENT"
  else "OK"

/-- `_assess_throughput_change` (throughput-polarity classification,
fixed `throughput` thresholds). -/
def assess_throughput_change (change : ℚ) : String :=
  if change < -(threshold "throughput_critical") then "CRITICAL"
  else if change < -(threshold "throughput_warning") then "WARNING"
  else if change > (5/100 : ℚ) then "IMPROVEMENT"
  else "OK"

/-- `get_exit_code`: CI exit status from the accumulated state. -/
def get_exit_code (s : CompState) : Nat :=
  if s.critical_issues ≠ [] then 2
  else if s.warnings ≠ [] then 1
  else 0

/-- Floor of a rational (via flooring integer division, so that it
reduces in the kernel). -/
def floorQ (x : ℚ) : ℤ :=
  Int.fdiv x.num x.den

/-- Round a rational to the nearest integer, ties to even (the
rounding used by Python's fixed-point float formatting). -/
def roundHalfEven (x : ℚ) : ℤ :=
  let f := floorQ x
  if x - (f : ℚ) < 1/2 then f
  else if x - (f : ℚ) > 1/2 then f + 1
  else if f % 2 = 0 then f else f + 1

/-- Left-pad a digit string with zeros to `d` characters. -/
def padZeros (s : String) (d : Nat) : String :=
  String.mk (List.replicate (d - s.length) '0') ++ s

/-- Python `f"{x:.df}"`: fixed-point rendering with `d` decimals. -/
def formatFixed (x : ℚ) (d : Nat) : String :=
  let m := roundHalfEven (x * (10 : ℚ) ^ d)
  let a := m.natAbs
  let sign := if m < 0 then "-" else ""
  if d = 0 then sign ++ toString a
  else sign ++ toString (a / 10 ^ d) ++ "." ++ padZeros (toString (a % 10 ^ d)) d

/-- Python `f"{x:+.df}"`: as `formatFixed` but with an explicit sign
for non-negative values. -/
def formatSignedFixed (x : ℚ) (d : Nat) : String :=
  if x < 0 then formatFixed x d else "+" ++ formatFixed x d

/-- Python `f"{s:ns}"`: right-pad with spaces to width `n`. -/
def padRight (s : String) (n : Nat) : String :=
  s ++ String.mk (List.replicate (n - s.length) ' ')

/-- `_format_time`: auto-scaling time unit rendering. -/
def format_time (time_us : ℚ) : String :=
  if time_us < 1 then formatFixed (time_us * 1000) 2 ++ " ns"
  else if time_us < 1000 then formatFixed time_us 2 ++ " μs"
  else formatFixed (time_us / 1000) 2 ++ " ms"

/-- Fuel-based helper for `strReplace` (structural recursion so it
reduces in the kernel; one character of fuel per consumed character). -/
def strReplaceAux (fuel : Nat) (s pat rep : List Char) : List Char :=
  match fuel with
  | 0 => s
  | fuel + 1 =>
    match s with
    | [] => []
    | c :: t =>
      if pat ≠ [] ∧ pat.isPrefixOf (c :: t) then
        rep ++ strReplaceAux fuel (List.drop pat.length (c :: t)) pat rep
      else c :: strReplaceAux fuel t pat rep

/-- Python `str.replace`: replace every (non-overlapping, leftmost)
occurrence.  Only ever called with non-empty patterns in the source. -/
def strReplace (s pat rep : String) : String :=
  String.mk (strReplaceAux s.data.length s.data pat.data rep.data)

/-- Substring test over character lists (used to state that a report
contains, or does not contain, a given fragment). -/
def containsSub (needle hay : List Char) : Bool :=
  match hay with
  | [] => needle.isEmpty
  | _ :: t => needle.isPrefixOf hay || containsSub needle t

/-- One entry of the dict returned by `compare_core_performance`. -/
structure CoreResult where
  baseline_time : ℚ
  current_time : ℚ
  change_percent : ℚ
  status : String
deriving DecidableEq, Repr

/-- The dict returned by `compare_safety_overhead` when all four
records are present. -/
structure SafetyResult where
  baseline_overhead_percent : ℚ
  current_overhead_percent : ℚ
  overhead_change_percent : ℚ
  status : String
deriving DecidableEq, Repr

/-- One entry of the dict returned by `compare_memory_performance`. -/
structure MemoryResult where
  baseline_throughput : ℚ
  current_throughput : ℚ
  change_percent : ℚ
  status : String
deriving DecidableEq, Repr

/-- The fixed metric list of `compare_core_performance`. -/
def core_benchmarks : List String :=
  ["BM_MakeMove_ShortChain_mean",
   "BM_MakeMove_MediumChain_mean",
   "BM_MakeMove_LongChain_mean"]

/-- The `WARNING:`/`CRITICAL:` message appended for a core metric. -/
def core_message (severity bench_name : String) (change baseline_time current_time : ℚ) :
    String :=
  severity ++ ": " ++ bench_name ++ " increased by " ++ formatFixed (change * 100) 1 ++
    "% (" ++ format_time baseline_time ++ " → " ++ format_time current_time ++ ")"

/-- The loop body of `compare_core_performance` for one metric name:
compute the entry (when the name is present in both sets) and append
at most one threshold message to the state. -/
def core_step (bdata cdata : List Bench)
    (acc : List (String × CoreResult) × CompState) (bench_name : String) :
    List (String × CoreResult) × CompState :=
  match get_benchmark_by_name bdata bench_name, get_benchmark_by_name cdata bench_name with
  | some baseline, some current =>
    let baseline_time := baseline.cpu_time.getD 0
    let current_time := current.cpu_time.getD 0
    let change := calculate_percentage_change baseline_time current_time
    let results := acc.1 ++ [(bench_name,
      { baseline_time := baseline_time, current_time := current_time,
        change_percent := change * 100,
        status := assess_performance_change change "core_latency" })]
    if change > threshold "core_latency_critical" then
      (results, { acc.2 with critical_issues := acc.2.critical_issues ++
        [core_message "CRITICAL" bench_name change baseline_time current_time] })
    else if change > threshold "core_latency_warning" then
      (results, { acc.2 with warnings := acc.2.warnings ++
        [core_message "WARNING" bench_name change baseline_time current_time] })
    else (results, acc.2)
  | _, _ => acc

/-- `compare_core_performance`: fold of `core_step` over the fixed
metric names, starting from an empty results dict. -/
def compare_core_performance (bdata cdata : List Bench) (s : CompState) :
    List (String × CoreResult) × CompState :=
  core_benchmarks.foldl (core_step bdata cdata) ([], s)

/-- The `ComparisonResult` entry `compare_core_performance` produces
for one metric name, `none` when the name is missing from either set. -/
def core_entry (bdata cdata : List Bench) (bench_name : String) : Option CoreResult :=
  match get_benchmark_by_name bdata bench_name, get_benchmark_by_name cdata bench_name with
  | some baseline, some current =>
    let baseline_time := baseline.cpu_time.getD 0
    let current_time := current.cpu_time.getD 0
    let change := calculate_percentage_change baseline_time current_time
    some { baseline_time := baseline_time, current_time := current_time,
           change_percent := change * 100,
           status := assess_performance_change change "core_latency" }
  | _, _ => none

/-- Subscript access `bench['cpu_time']`: raises `KeyError` when the
field is absent (unlike `bench.get('cpu_time', 0)`). -/
def itemCpuTime (b : Bench) : Except String ℚ :=
  match b.cpu_time with
  | some v => Except.ok v
  | none => Except.error "KeyError: cpu_time"

/-- The `WARNING:`/`CRITICAL:` message appended for the overhead metric. -/
def safety_message (severity : String) (overhead_change baseline_overhead current_overhead : ℚ) :
    String :=
  severity ++ ": Safety overhead increased by " ++ formatFixed (overhead_change * 100) 1 ++
    "% (" ++ formatFixed (baseline_overhead * 100) 1 ++ "% → " ++
    formatFixed (current_overhead * 100) 1 ++ "%)"

/-- `compare_safety_overhead`: look up the four safety records; when
all are present, compute each run's overhead and the percentage-point
delta between them; reading `['cpu_time']` can raise `KeyError`. -/
def compare_safety_overhead (bdata cdata : List Bench) (s : CompState) :
    Except String (Option SafetyResult × CompState) :=
  let validate_only := get_benchmark_by_name bdata "BM_SafetyLevel_Comparison/0_mean"
  let light_undo_baseline := get_benchmark_by_name bdata "BM_SafetyLevel_Comparison/1_mean"
  let validate_only_current := get_benchmark_by_name cdata "BM_SafetyLevel_Comparison/0_mean"
  let light_undo_current := get_benchmark_by_name cdata "BM_SafetyLevel_Comparison/1_mean"
  match validate_only, light_undo_baseline, validate_only_current, light_undo_current with
  | some v0, some l0, some v1, some l1 => do
    let t0 ← itemCpuTime v0
    let u0 ← itemCpuTime l0
    let t1 ← itemCpuTime v1
    let u1 ← itemCpuTime l1
    let baseline_overhead := calculate_percentage_change t0 u0
    let current_overhead := calculate_percentage_change t1 u1
    let overhead_change := current_overhead - baseline_overhead
    let result : SafetyResult :=
      { baseline_overhead_percent := baseline_overhead * 100,
        current_overhead_percent := current_overhead * 100,
        overhead_change_percent := overhead_change * 100,
        status := assess_performance_change overhead_change "safety_overhead" }
    if overhead_change > threshold "safety_overhead_critical" then
      Except.ok (some result, { s with critical_issues := s.critical_issues ++
        [safety_message "CRITICAL" overhead_change baseline_overhead current_overhead] })
    else if overhead_change > threshold "safety_overhead_warning" then
      Except.ok (some result, { s with warnings := s.warnings ++
        [safety_message "WARNING" overhead_change baseline_overhead current_overhead] })
    else Except.ok (some result, s)
  | _, _, _, _ => Except.ok (none, s)

/-- The fixed metric list of `compare_memory_performance`. -/
def memory_benchmarks : List String :=
  ["BM_MakeMove_MemoryTracking/64_mean",
   "BM_MakeMove_MemoryTracking/256_mean"]

/-- The `WARNING:`/`CRITICAL:` message appended for a memory metric. -/
def memory_message (severity bench_name : String) (change : ℚ) : String :=
  severity ++ ": " ++ bench_name ++ " throughput decreased by " ++
    formatFixed (|change| * 100) 1 ++ "%"

/-- The loop body of `compare_memory_performance` for one metric name
(throughput polarity: a decrease breaches the negated thresholds). -/
def memory_step (bdata cdata : List Bench)
    (acc : List (String × MemoryResult) × CompState) (bench_name : String) :
    List (String × MemoryResult) × CompState :=
  match get_benchmark_by_name bdata bench_name, get_benchmark_by_name cdata bench_name with
  | some baseline, some current =>
    let baseline_throughput := baseline.bytes_per_second.getD 0
    let current_throughput := current.bytes_per_second.getD 0
    let change := calculate_percentage_change baseline_throughput current_throughput
    let results := acc.1 ++ [(bench_name,
      { baseline_throughput := baseline_throughput,
        current_throughput := current_throughput,
        change_percent := change * 100,
        status := assess_throughput_change change })]
    if change < -(threshold "throughput_critical") then
      (results, { acc.2 with critical_issues := acc.2.critical_issues ++
        [memory_message "CRITICAL" bench_name change] })
    else if change < -(threshold "throughput_warning") then
      (results, { acc.2 with warnings := acc.2.warnings ++
        [memory_message "WARNING" bench_name change] })
    else (results, acc.2)
  | _, _ => acc

/-- `compare_memory_performance`: fold of `memory_step` over the fixed
metric names. -/
def compare_memory_performance (bdata cdata : List Bench) (s : CompState) :
    List (String × MemoryResult) × CompState :=
  memory_benchmarks.foldl (memory_step bdata cdata) ([], s)

/-- The `ComparisonResult` entry `compare_memory_performance` produces
for one metric name, `none` when the name is missing from either set. -/
def memory_entry (bdata cdata : List Bench) (bench_name : String) : Option MemoryResult :=
  match get_benchmark_by_name bdata bench_name, get_benchmark_by_name cdata bench_name with
  | some baseline, some current =>
    let baseline_throughput := baseline.bytes_per_second.getD 0
    let current_throughput := current.bytes_per_second.getD 0
    let change := calculate_percentage_change baseline_throughput current_throughput
    some { baseline_throughput := baseline_throughput,
           current_throughput := current_throughput,
           change_percent := change * 100,
           status := assess_throughput_change change }
  | _, _ => none

/-- The `"=" * 60` separator. -/
def sepEq : String := String.mk (List.replicate 60 '=')

/-- The `"-" * 40` separator. -/
def sepDash : String := String.mk (List.replicate 40 '-')

/-- One line of the core performance section. -/
def render_core_line (bench_name : String) (d : CoreResult) : String :=
  let clean_name := strReplace (strReplace bench_name "BM_MakeMove_" "") "_mean" ""
  padRight clean_name 15 ++ ": " ++ format_time d.baseline_time ++ " → " ++
    format_time d.current_time ++ " (" ++ formatSignedFixed d.change_percent 1 ++ "%) [" ++
    d.status ++ "]"

/-- One line of the memory performance section. -/
def render_memory_line (bench_name : String) (d : MemoryResult) : String :=
  let clean_name := strReplace (strReplace bench_name "BM_MakeMove_MemoryTracking/" "") "_mean" ""
  "Chain " ++ padRight clean_name 3 ++ ": " ++ formatSignedFixed d.change_percent 1 ++
    "% throughput change [" ++ d.status ++ "]"

/-- `generate_report`, producing the list of report lines (the Python
code accumulates exactly this list before joining with newlines).
Running the three comparisons is part of report generation in the
source, so the state is threaded through and returned alongside. -/
def generate_report_lines (baseline_file current_file : String) (bdata cdata : List Bench)
    (s : CompState) : Except String (List String × CompState) := do
  let head : List String :=
    [sepEq, "BENCHMARK REGRESSION ANALYSIS REPORT", sepEq,
     "Baseline: " ++ baseline_file, "Current:  " ++ current_file, "",
     "CORE PERFORMANCE ANALYSIS", sepDash]
  let core := compare_core_performance bdata cdata s
  let r1 := head ++ core.1.map (fun p => render_core_line p.1 p.2) ++
    ["", "SAFETY SYSTEM OVERHEAD ANALYSIS", sepDash]
  let safety ← compare_safety_overhead bdata cdata core.2
  let safety_lines := match safety.1 with
    | some r =>
      ["Baseline overhead: " ++ formatFixed r.baseline_overhead_percent 2 ++ "%",
       "Current overhead:  " ++ formatFixed r.current_overhead_percent 2 ++ "%",
       "Change:           " ++ formatSignedFixed r.overhead_change_percent 2 ++ "% [" ++
         r.status ++ "]"]
    | none => ["Safety overhead data not available"]
  let r2 := r1 ++ safety_lines ++ ["", "MEMORY PERFORMANCE ANALYSIS", sepDash]
  let memory := compare_memory_performance bdata cdata safety.2
  let r3 := r2 ++ memory.1.map (fun p => render_memory_line p.1 p.2) ++ ["", "SUMMARY", sepDash]
  let s3 := memory.2
  let critical_lines := if s3.critical_issues ≠ [] then
      ["❌ CRITICAL ISSUES DETECTED:"] ++ s3.critical_issues.map (fun i => "   " ++ i)
    else []
  let warning_lines := if s3.warnings ≠ [] then
      ["⚠️  WARNINGS:"] ++ s3.warnings.map (fun w => "   " ++ w)
    else []
  let ok_lines := if s3.critical_issues = [] ∧ s3.warnings = [] then
      ["✅ No performance regressions detected"]
    else []
  Except.ok (r3 ++ critical_lines ++ warning_lines ++ ok_lines ++ ["", sepEq], s3)

/-- `generate_report`: the joined report text. -/
def generate_report (baseline_file current_file : String) (bdata cdata : List Bench)
    (s : CompState) : Except String (String × CompState) :=
  (generate_report_lines baseline_file current_file bdata cdata s).map
    (fun p => (String.intercalate "\n" p.1, p.2))

/-- The two document shapes accepted by `_load_json`: a dict exposing
a `benchmarks` sequence, or a bare sequence of records. -/
inductive JsonDoc where
  | withBenchmarks (benchmarks : List Bench)
  | bare (records : List Bench)
deriving DecidableEq, Repr

/-- What opening and parsing a file can yield: the file is absent
(`FileNotFoundError`), unparseable (`json.JSONDecodeError`), or a
parsed document. -/
inductive FileContent where
  | missing
  | invalid
  | valid (doc : JsonDoc)
deriving DecidableEq, Repr

/-- Outcome of `_load_json`: either `sys.exit(code)` after printing
`message`, or the normalised `benchmarks` list. -/
inductive LoadResult where
  | exitWith (code : Nat) (message : String)
  | loaded (benchmarks : List Bench)
deriving DecidableEq, Repr

/-- `_load_json`: normalise both document shapes; on a missing or
unparseable file, print an error and `sys.exit(1)`. -/
def load_json (filename : String) (fc : FileContent) : LoadResult :=
  match fc with
  | FileContent.missing => LoadResult.exitWith 1 ("Error: File " ++ filename ++ " not found")
  | FileContent.invalid => LoadResult.exitWith 1 ("Error: Invalid JSON in " ++ filename)
  | FileContent.valid (JsonDoc.withBenchmarks bs) => LoadResult.loaded bs
  | FileContent.valid (JsonDoc.bare rs) => LoadResult.loaded rs

/-- The fully initialised comparator (`BenchmarkComparator.__init__`
succeeded: both documents loaded, empty message lists). -/
structure Comparator where
  baseline_file : String
  current_file : String
  baseline_data : List Bench
  current_data : List Bench
  state : CompState
deriving DecidableEq, Repr

/-- `BenchmarkComparator.__init__`: load baseline then current; a load
failure terminates the invocation (with its exit code and message)
before any comparison state exists. -/
def comparator_init (baseline_file current_file : String) (bfc cfc : FileContent) :
    Except (Nat × String) Comparator :=
  match load_json baseline_file bfc with
  | LoadResult.exitWith c m => Except.error (c, m)
  | LoadResult.loaded bdata =>
    match load_json current_file cfc with
    | LoadResult.exitWith c m => Except.error (c, m)
    | LoadResult.loaded cdata =>
      Except.ok ⟨baseline_file, current_file, bdata, cdata, ⟨[], []⟩⟩

/-- The process exit code produced when `__init__` terminates the
invocation, `none` when initialisation succeeded. -/
def initExitCode (r : Except (Nat × String) Comparator) : Option Nat :=
  match r with
  | Except.error (c, _) => some c
  | Except.ok _ => none

/-- Concrete input for the missing-metric scenario:
`BM_MakeMove_MediumChain_mean` is present in the baseline set only,
and the safety records are absent. -/
def c6_baseline : List Bench :=
  [⟨"BM_MakeMove_ShortChain_mean", some 100, none⟩,
   ⟨"BM_MakeMove_MediumChain_mean", some 100, none⟩]

/-- Current result set for the missing-metric scenario. -/
def c6_current : List Bench :=
  [⟨"BM_MakeMove_ShortChain_mean", some 100, none⟩]

/-- Concrete baseline producing a single WARNING (a +20% latency
regression on the short-chain metric). -/
def c9_baseline : List Bench :=
  [⟨"BM_MakeMove_ShortChain_mean", some 100, none⟩]

/-- Concrete current set for the WARNING scenario. -/
def c9_current : List Bench :=
  [⟨"BM_MakeMove_ShortChain_mean", some 120, none⟩]

/-- Baseline set in which all four safety records are present by name
but `BM_SafetyLevel_Comparison/0_mean` lacks its `cpu_time` field. -/
def kerr_baseline : List Bench :=
  [⟨"BM_SafetyLevel_Comparison/0_mean", none, none⟩,
   ⟨"BM_SafetyLevel_Comparison/1_mean", some 110, none⟩]

/-- Current set for the missing-`cpu_time` scenario (fields intact). -/
def kerr_current : List Bench :=
  [⟨"BM_SafetyLevel_Comparison/0_mean", some 100, none⟩,
   ⟨"BM_SafetyLevel_Comparison/1_mean", some 118, none⟩]

/-- Baseline whose core record lacks `cpu_time` (the core comparator
substitutes 0 via `.get('cpu_time', 0)`). -/
def c10_baseline : List Bench :=
  [⟨"BM_MakeMove_ShortChain_mean", none, none⟩]

/-- Current set for the core missing-`cpu_time` scenario. -/
def c10_current : List Bench :=
  [⟨"BM_MakeMove_ShortChain_mean", some 100, none⟩]

/-- Baseline set for the overhead-delta scenario: within-run overhead
10% (100 → 110). -/
def c4_baseline : List Bench :=
  [⟨"BM_SafetyLevel_Comparison/0_mean", some 100, none⟩,
   ⟨"BM_SafetyLevel_Comparison/1_mean", some 110, none⟩]

/-- Current set for the overhead-delta scenario: within-run overhead
18% (100 → 118). -/
def c4_current : List Bench :=
  [⟨"BM_SafetyLevel_Comparison/0_mean", some 100, none⟩,
   ⟨"BM_SafetyLevel_Comparison/1_mean", some 118, none⟩]

/-- The warning message the comparator appends for the +20%
short-chain regression of `c9_baseline`/`c9_current`. -/
def c9_warning_message : String :=
  "WARNING: BM_MakeMove_ShortChain_mean increased by 20.0% (100.00 μs → 120.00 μs)"

/-- Claim C1: the exit code is 2 iff the critical list is non-empty
(regardless of warnings), 1 iff it is empty and the warning list is
non-empty, and 0 iff both lists are empty. -/
theorem c1_exit_code_policy (warnings critical_issues : List String) :
    (get_exit_code ⟨warnings, critical_issues⟩ = 2 ↔ critical_issues ≠ []) ∧
    (get_exit_code ⟨warnings, critical_issues⟩ = 1 ↔
      critical_issues = [] ∧ warnings ≠ []) ∧
    (get_exit_code ⟨warnings, critical_issues⟩ = 0 ↔
      critical_issues = [] ∧ warnings = []) := by
  unfold get_exit_code
  split_ifs <;> simp_all

/-- Claim C2: in latency mode, with positive thresholds and
warning < critical, a change exactly equal to the warning fraction
classifies OK; strictly greater (up to and including the critical
fraction) classifies WARNING, so exactly the critical fraction is
WARNING; strictly greater than the critical fraction classifies
CRITICAL.  The critical threshold dominates: any change above it is
CRITICAL even though it is also above the warning threshold. -/
theorem c2_latency_boundary_exactness (category : String) (change : ℚ)
    (hw : 0 < threshold (category ++ "_warning"))
    (hc : threshold (category ++ "_warning") < threshold (category ++ "_critical")) :
    (change = threshold (category ++ "_warning") →
      assess_performance_change change category = "OK") ∧
    (threshold (category ++ "_warning") < change →
      change ≤ threshold (category ++ "_critical") →
      assess_performance_change change category = "WARNING") ∧
    (threshold (category ++ "_critical") < change →
      assess_performance_change change category = "CRITICAL") := by
  simp only [assess_performance_change]
  refine ⟨?_, ?_, ?_⟩ <;> intros <;> split_ifs <;>
    first
    | rfl
    | (exfalso; subst_vars; linarith)

/-- Claim C2 witness at the concrete `core_latency` category:
warning = 0.10, critical = 0.25, and a change of exactly 0.10 is OK. -/
theorem c2_latency_boundary_exactness_witness :
    (0 : ℚ) < threshold ("core_latency" ++ "_warning") ∧
    threshold ("core_latency" ++ "_warning") < threshold ("core_latency" ++ "_critical") ∧
    assess_performance_change (threshold ("core_latency" ++ "_warning")) "core_latency" = "OK" :=
  ⟨by decide, by decide,
    (c2_latency_boundary_exactness "core_latency"
      (threshold ("core_latency" ++ "_warning")) (by decide) (by decide)).1 rfl⟩

/-- Claim C3: in throughput mode, a change below the negated critical
threshold (−0.30) is CRITICAL; otherwise below the negated warning
threshold (−0.15) is WARNING; otherwise above 0.05 is IMPROVEMENT;
otherwise OK.  In particular −0.16 classifies WARNING and +0.20
classifies IMPROVEMENT. -/
theorem c3_throughput_polarity (change : ℚ) :
    (change < -(threshold "throughput_critical") →
      assess_throughput_change change = "CRITICAL") ∧
    (-(threshold "throughput_critical") ≤ change →
      change < -(threshold "throughput_warning") →
      assess_throughput_change change = "WARNING") ∧
    (-(threshold "throughput_warning") ≤ change → (5/100 : ℚ) < change →
      assess_throughput_change change = "IMPROVEMENT") ∧
    (-(threshold "throughput_warning") ≤ change → change ≤ (5/100 : ℚ) →
      assess_throughput_change change = "OK") ∧
    assess_throughput_change (-(16/100)) = "WARNING" ∧
    assess_throughput_change (20/100) = "IMPROVEMENT" := by
  have hw : threshold "throughput_warning" = 15/100 := by decide
  have hc : threshold "throughput_critical" = 30/100 := by decide
  refine ⟨?_, ?_, ?_, ?_, by decide, by decide⟩ <;>
    (simp only [assess_throughput_change, hw, hc]; intros; split_ifs <;>
      first
      | rfl
      | (exfalso; linarith))

/-- Claim C3 witness: the two concrete classifications, obtained by
applying the general theorem at −0.16 and +0.20. -/
theorem c3_throughput_polarity_witness :
    (-(threshold "throughput_critical") ≤ (-(16/100) : ℚ) ∧
      assess_throughput_change (-(16/100)) = "WARNING") ∧
    (-(threshold "throughput_warning") ≤ (20/100 : ℚ) ∧
      assess_throughput_change (20/100) = "IMPROVEMENT") :=
  ⟨⟨by decide, (c3_throughput_polarity (-(16/100))).2.1 (by decide) (by decide)⟩,
   ⟨by decide, (c3_throughput_polarity (20/100)).2.2.1 (by decide) (by decide)⟩⟩

/-- Claim C5: a zero baseline yields a percentage change of exactly 0
(no division), and a non-zero baseline yields
`(current - baseline) / baseline`. -/
theorem c5_zero_baseline_guard (baseline current : ℚ) :
    (baseline = 0 → calculate_percentage_change baseline current = 0) ∧
    (baseline ≠ 0 →
      calculate_percentage_change baseline current = (current - baseline) / baseline) := by
  unfold calculate_percentage_change
  constructor <;> intro h <;> simp [h]

/-- Claim C5 witness: baseline 0 with current 5 gives 0; baseline 2
with current 3 gives 1/2. -/
theorem c5_zero_baseline_guard_witness :
    calculate_percentage_change 0 5 = 0 ∧
    ((2 : ℚ) ≠ 0 ∧ calculate_percentage_change 2 3 = ((3 : ℚ) - 2) / 2) :=
  ⟨(c5_zero_baseline_guard 0 5).1 rfl,
   ⟨by norm_num, (c5_zero_baseline_guard 2 3).2 (by norm_num)⟩⟩

/-- Appending a non-empty list changes a list. -/
theorem append_singleton_ne {α : Type} (l : List α) (a : α) : l ++ [a] ≠ l := by
  intro h
  have hlen := congrArg List.length h
  simp at hlen

/-- `List.lookup` misses an append when it misses both parts. -/
theorem lookup_append_none {β : Type} {name : String} :
    ∀ {l1 l2 : List (String × β)}, l1.lookup name = none → l2.lookup name = none →
      (l1 ++ l2).lookup name = none := by
  intro l1
  induction l1 with
  | nil =>
    intro l2 _ h2
    simpa using h2
  | cons p t ih =>
    intro l2 h1 h2
    obtain ⟨k, b⟩ := p
    simp only [List.cons_append, List.lookup] at h1 ⊢
    cases hbe : (name == k) with
    | true => rw [hbe] at h1; simp at h1
    | false => rw [hbe] at h1; exact ih h1 h2

/-- A metric name missing from either set never gains a results
entry, across any fold of `core_step`. -/
theorem core_foldl_lookup_none (bdata cdata : List Bench) (name : String)
    (h : get_benchmark_by_name bdata name = none ∨ get_benchmark_by_name cdata name = none) :
    ∀ (L : List String) (acc : List (String × CoreResult) × CompState),
      acc.1.lookup name = none →
      (L.foldl (core_step bdata cdata) acc).1.lookup name = none := by
  intro L
  induction L with
  | nil =>
    intro acc h0
    simpa using h0
  | cons n t ih =>
    intro acc h0
    rw [List.foldl_cons]
    apply ih
    unfold core_step
    cases hb : get_benchmark_by_name bdata n with
    | none => exact h0
    | some b =>
      cases hc : get_benchmark_by_name cdata n with
      | none => exact h0
      | some c =>
        have hne : ¬ name = n := by
          rintro rfl
          rcases h with h | h
          · rw [h] at hb; exact Option.noConfusion hb
          · rw [h] at hc; exact Option.noConfusion hc
        have hbeq : (name == n) = false := beq_eq_false_iff_ne.mpr hne
        have hsingle : ∀ e : CoreResult,
            ([(n, e)] : List (String × CoreResult)).lookup name = none := by
          intro e
          simp [List.lookup, hbeq]
        dsimp only
        split_ifs <;> exact lookup_append_none h0 (hsingle _)

/-- Reduction of a successful bind in the `Except` monad. -/
theorem except_ok_bind {ε α β : Type} (a : α) (f : α → Except ε β) :
    (Except.ok a : Except ε α) >>= f = f a := rfl

/-- Claim C4: the overhead comparison is a second-order,
percentage-point delta.  With all four safety records present and
carrying `cpu_time`, each run's overhead is the percentage change from
the feature-disabled to the feature-enabled measurement within that
run, and the reported delta is `currentOverhead - baselineOverhead` —
an absolute (percentage-point) difference of the two overheads, not a
relative change of them. -/
theorem c4_overhead_percentage_point_delta (bdata cdata : List Bench) (s : CompState)
    (v0 l0 v1 l1 : Bench) (t0 u0 t1 u1 : ℚ)
    (h1 : get_benchmark_by_name bdata "BM_SafetyLevel_Comparison/0_mean" = some v0)
    (h2 : get_benchmark_by_name bdata "BM_SafetyLevel_Comparison/1_mean" = some l0)
    (h3 : get_benchmark_by_name cdata "BM_SafetyLevel_Comparison/0_mean" = some v1)
    (h4 : get_benchmark_by_name cdata "BM_SafetyLevel_Comparison/1_mean" = some l1)
    (e1 : v0.cpu_time = some t0) (e2 : l0.cpu_time = some u0)
    (e3 : v1.cpu_time = some t1) (e4 : l1.cpu_time = some u1) :
    ((compare_safety_overhead bdata cdata s).toOption.bind (fun p => p.1)).map
        (fun r => r.baseline_overhead_percent) =
      some (calculate_percentage_change t0 u0 * 100) ∧
    ((compare_safety_overhead bdata cdata s).toOption.bind (fun p => p.1)).map
        (fun r => r.current_overhead_percent) =
      some (calculate_percentage_change t1 u1 * 100) ∧
    ((compare_safety_overhead bdata cdata s).toOption.bind (fun p => p.1)).map
        (fun r => r.overhead_change_percent) =
      some (calculate_percentage_change t1 u1 * 100 -
        calculate_percentage_change t0 u0 * 100) := by
  simp only [compare_safety_overhead, h1, h2, h3, h4, itemCpuTime, e1, e2, e3, e4,
    except_ok_bind]
  split_ifs <;> refine ⟨rfl, rfl, ?_⟩ <;>
    (simp only [Except.toOption, Option.bind, Option.map, Option.some.injEq]; ring)

/-- Claim C4 witness: overheads 10% (100 → 110) and 18% (100 → 118)
give an overhead delta of exactly 8 percentage points, independent of
the 10% base. -/
theorem c4_overhead_percentage_point_delta_witness :
    get_benchmark_by_name c4_baseline "BM_SafetyLevel_Comparison/0_mean" =
      some ⟨"BM_SafetyLevel_Comparison/0_mean", some 100, none⟩ ∧
    ((compare_safety_overhead c4_baseline c4_current ⟨[], []⟩).toOption.bind
        (fun p => p.1)).map (fun r => r.overhead_change_percent) =
      some (calculate_percentage_change 100 118 * 100 -
        calculate_percentage_change 100 110 * 100) ∧
    calculate_percentage_change 100 110 = 10/100 ∧
    calculate_percentage_change 100 118 = 18/100 ∧
    (18/100 : ℚ) * 100 - (10/100 : ℚ) * 100 = 8 :=
  ⟨by decide,
   (c4_overhead_percentage_point_delta c4_baseline c4_current ⟨[], []⟩
      ⟨"BM_SafetyLevel_Comparison/0_mean", some 100, none⟩
      ⟨"BM_SafetyLevel_Comparison/1_mean", some 110, none⟩
      ⟨"BM_SafetyLevel_Comparison/0_mean", some 100, none⟩
      ⟨"BM_SafetyLevel_Comparison/1_mean", some 118, none⟩
      100 110 100 118 (by decide) (by decide) (by decide) (by decide)
      rfl rfl rfl rfl).2.2,
   by decide, by decide, by decide⟩

/-- Claim C6: a metric name absent from either result set is silently
skipped: the core comparison produces no results entry for it; a
missing safety record makes `compare_safety_overhead` return no result
(not an error) with the state untouched; and concretely, with
`BM_MakeMove_MediumChain_mean` present only in the baseline set and no
safety records at all, the generated report has no line mentioning the
metric and renders the overhead section as unavailable. -/
theorem c6_missing_metric_not_error (bdata cdata : List Bench) (s : CompState) (name : String) :
    (get_benchmark_by_name bdata name = none ∨ get_benchmark_by_name cdata name = none →
      (compare_core_performance bdata cdata s).1.lookup name = none) ∧
    (get_benchmark_by_name bdata "BM_SafetyLevel_Comparison/0_mean" = none ∨
      get_benchmark_by_name bdata "BM_SafetyLevel_Comparison/1_mean" = none ∨
      get_benchmark_by_name cdata "BM_SafetyLevel_Comparison/0_mean" = none ∨
      get_benchmark_by_name cdata "BM_SafetyLevel_Comparison/1_mean" = none →
      compare_safety_overhead bdata cdata s = Except.ok (none, s)) ∧
    (generate_report_lines "baseline.json" "current.json" c6_baseline c6_current
        ⟨[], []⟩).toOption.map
      (fun p => p.1.filter (fun line => containsSub "MediumChain".data line.data)) =
      some [] ∧
    (generate_report_lines "baseline.json" "current.json" c6_baseline c6_current
        ⟨[], []⟩).toOption.map
      (fun p => p.1.contains "Safety overhead data not available") = some true := by
  refine ⟨?_, ?_, rfl, rfl⟩
  · intro h
    exact core_foldl_lookup_none bdata cdata name h core_benchmarks ([], s) rfl
  · intro h
    simp only [compare_safety_overhead]
    cases hv0 : get_benchmark_by_name bdata "BM_SafetyLevel_Comparison/0_mean" with
    | none => rfl
    | some v0 =>
      cases hl0 : get_benchmark_by_name bdata "BM_SafetyLevel_Comparison/1_mean" with
      | none => rfl
      | some l0 =>
        cases hv1 : get_benchmark_by_name cdata "BM_SafetyLevel_Comparison/0_mean" with
        | none => rfl
        | some v1 =>
          cases hl1 : get_benchmark_by_name cdata "BM_SafetyLevel_Comparison/1_mean" with
          | none => rfl
          | some l1 =>
            exfalso
            rcases h with h | h | h | h
            · rw [h] at hv0; exact Option.noConfusion hv0
            · rw [h] at hl0; exact Option.noConfusion hl0
            · rw [h] at hv1; exact Option.noConfusion hv1
            · rw [h] at hl1; exact Option.noConfusion hl1

/-- Claim C6 witness: with `BM_MakeMove_MediumChain_mean` absent from
the current set there is no results entry for it, and with the safety
records absent the overhead comparison returns no result and leaves
the state unchanged. -/
theorem c6_missing_metric_not_error_witness :
    get_benchmark_by_name c6_current "BM_MakeMove_MediumChain_mean" = none ∧
    (compare_core_performance c6_baseline c6_current ⟨[], []⟩).1.lookup
        "BM_MakeMove_MediumChain_mean" = none ∧
    get_benchmark_by_name c6_baseline "BM_SafetyLevel_Comparison/0_mean" = none ∧
    compare_safety_overhead c6_baseline c6_current ⟨[], []⟩ = Except.ok (none, ⟨[], []⟩) :=
  ⟨by decide,
   (c6_missing_metric_not_error c6_baseline c6_current ⟨[], []⟩
      "BM_MakeMove_MediumChain_mean").1 (Or.inr (by decide)),
   by decide,
   (c6_missing_metric_not_error c6_baseline c6_current ⟨[], []⟩
      "BM_MakeMove_MediumChain_mean").2.1 (Or.inl (by decide))⟩

/-- Claim C7 (amended): a load failure — missing file or unparseable
document — is fatal: initialisation reports it and terminates the
invocation with exit code 1, before any comparison state exists.  (The
original claim's "only fatal condition in the core" part fails on the
code: see the counterexample.) -/
theorem c7_load_failure_fatal (bfile cfile : String) (bfc cfc : FileContent)
    (h : bfc = FileContent.missing ∨ bfc = FileContent.invalid ∨
      cfc = FileContent.missing ∨ cfc = FileContent.invalid) :
    initExitCode (comparator_init bfile cfile bfc cfc) = some 1 := by
  rcases h with rfl | rfl | rfl | rfl
  · rfl
  · rfl
  · cases bfc with
    | missing => rfl
    | invalid => rfl
    | valid doc => cases doc <;> rfl
  · cases bfc with
    | missing => rfl
    | invalid => rfl
    | valid doc => cases doc <;> rfl

/-- Claim C7 witness: a missing baseline file exits with code 1 even
when the current document is fine. -/
theorem c7_load_failure_fatal_witness :
    (FileContent.missing = FileContent.missing ∨ FileContent.missing = FileContent.invalid ∨
      FileContent.valid (JsonDoc.bare []) = FileContent.missing ∨
      FileContent.valid (JsonDoc.bare []) = FileContent.invalid) ∧
    initExitCode (comparator_init "baseline.json" "current.json" FileContent.missing
      (FileContent.valid (JsonDoc.bare []))) = some 1 :=
  ⟨Or.inl rfl,
   c7_load_failure_fatal "baseline.json" "current.json" FileContent.missing
     (FileContent.valid (JsonDoc.bare [])) (Or.inl rfl)⟩

/-- Claim C7 counterexample (against "the only fatal condition in the
core"): both documents load successfully, yet report generation
terminates with an uncaught `KeyError` because a present safety record
lacks its `cpu_time` field. -/
theorem c7_not_only_fatal_counterexample :
    comparator_init "baseline.json" "current.json"
        (FileContent.valid (JsonDoc.withBenchmarks kerr_baseline))
        (FileContent.valid (JsonDoc.withBenchmarks kerr_current)) =
      Except.ok ⟨"baseline.json", "current.json", kerr_baseline, kerr_current, ⟨[], []⟩⟩ ∧
    generate_report "baseline.json" "current.json" kerr_baseline kerr_current ⟨[], []⟩ =
      Except.error "KeyError: cpu_time" :=
  ⟨rfl, rfl⟩

/-- Claim C8: a single comparison contributes a message to at most one
of the two lists, matching its classified severity exactly: the
warnings list grows iff the recorded status is WARNING, the critical
list grows iff it is CRITICAL, and never both — for the core (latency)
step and the memory (throughput) step alike. -/
theorem c8_one_message_list_per_comparison (bdata cdata : List Bench)
    (acc : List (String × CoreResult) × CompState)
    (macc : List (String × MemoryResult) × CompState) (bench_name : String) :
    ((core_step bdata cdata acc bench_name).2.warnings ≠ acc.2.warnings ↔
      (core_entry bdata cdata bench_name).map (fun r => r.status) = some "WARNING") ∧
    ((core_step bdata cdata acc bench_name).2.critical_issues ≠ acc.2.critical_issues ↔
      (core_entry bdata cdata bench_name).map (fun r => r.status) = some "CRITICAL") ∧
    ¬((core_step bdata cdata acc bench_name).2.warnings ≠ acc.2.warnings ∧
      (core_step bdata cdata acc bench_name).2.critical_issues ≠ acc.2.critical_issues) ∧
    ((memory_step bdata cdata macc bench_name).2.warnings ≠ macc.2.warnings ↔
      (memory_entry bdata cdata bench_name).map (fun r => r.status) = some "WARNING") ∧
    ((memory_step bdata cdata macc bench_name).2.critical_issues ≠ macc.2.critical_issues ↔
      (memory_entry bdata cdata bench_name).map (fun r => r.status) = some "CRITICAL") ∧
    ¬((memory_step bdata cdata macc bench_name).2.warnings ≠ macc.2.warnings ∧
      (memory_step bdata cdata macc bench_name).2.critical_issues ≠ macc.2.critical_issues) := by
  have hCW : ("CRITICAL" : String) ≠ "WARNING" := by decide
  have hWC : ("WARNING" : String) ≠ "CRITICAL" := by decide
  have hOW : ("OK" : String) ≠ "WARNING" := by decide
  have hOC : ("OK" : String) ≠ "CRITICAL" := by decide
  have hIW : ("IMPROVEMENT" : String) ≠ "WARNING" := by decide
  have hIC : ("IMPROVEMENT" : String) ≠ "CRITICAL" := by decide
  have ecrit : ("core_latency" ++ "_critical" : String) = "core_latency_critical" := rfl
  have ewarn : ("core_latency" ++ "_warning" : String) = "core_latency_warning" := rfl
  unfold core_step core_entry memory_step memory_entry assess_performance_change
    assess_throughput_change
  rw [ecrit, ewarn]
  cases hb : get_benchmark_by_name bdata bench_name <;>
    cases hc : get_benchmark_by_name cdata bench_name <;>
    (try dsimp only) <;>
    (try split_ifs) <;>
    simp_all [append_singleton_ne]

/-- `core_step` only appends to the two message lists. -/
theorem core_step_appends_only (bdata cdata : List Bench)
    (acc : List (String × CoreResult) × CompState) (n : String) :
    acc.2.warnings <+: (core_step bdata cdata acc n).2.warnings ∧
    acc.2.critical_issues <+: (core_step bdata cdata acc n).2.critical_issues := by
  unfold core_step
  cases get_benchmark_by_name bdata n <;> cases get_benchmark_by_name cdata n <;>
    (try dsimp only) <;> (try split_ifs) <;>
    exact ⟨by first | exact List.prefix_rfl | exact List.prefix_append _ _,
           by first | exact List.prefix_rfl | exact List.prefix_append _ _⟩

/-- `memory_step` only appends to the two message lists. -/
theorem memory_step_appends_only (bdata cdata : List Bench)
    (acc : List (String × MemoryResult) × CompState) (n : String) :
    acc.2.warnings <+: (memory_step bdata cdata acc n).2.warnings ∧
    acc.2.critical_issues <+: (memory_step bdata cdata acc n).2.critical_issues := by
  unfold memory_step
  cases get_benchmark_by_name bdata n <;> cases get_benchmark_by_name cdata n <;>
    (try dsimp only) <;> (try split_ifs) <;>
    exact ⟨by first | exact List.prefix_rfl | exact List.prefix_append _ _,
           by first | exact List.prefix_rfl | exact List.prefix_append _ _⟩

/-- Reduction of a failed bind in the `Except` monad. -/
theorem except_error_bind {ε α β : Type} (e : ε) (f : α → Except ε β) :
    (Except.error e : Except ε α) >>= f = Except.error e := rfl

/-- `compare_safety_overhead` only appends to the two message lists. -/
theorem safety_state_appends_only (bdata cdata : List Bench) (s : CompState)
    (p : Option SafetyResult × CompState)
    (h : compare_safety_overhead bdata cdata s = Except.ok p) :
    s.warnings <+: p.2.warnings ∧ s.critical_issues <+: p.2.critical_issues := by
  unfold compare_safety_overhead at h
  rcases hv0 : get_benchmark_by_name bdata "BM_SafetyLevel_Comparison/0_mean" with _ | v0 <;>
  rcases hl0 : get_benchmark_by_name bdata "BM_SafetyLevel_Comparison/1_mean" with _ | l0 <;>
  rcases hv1 : get_benchmark_by_name cdata "BM_SafetyLevel_Comparison/0_mean" with _ | v1 <;>
  rcases hl1 : get_benchmark_by_name cdata "BM_SafetyLevel_Comparison/1_mean" with _ | l1 <;>
    rw [hv0, hl0, hv1, hl1] at h <;>
    first
    | (injection h with h'; subst h'; exact ⟨List.prefix_rfl, List.prefix_rfl⟩)
    | skip
  rcases e0 : v0.cpu_time with _ | t0 <;>
  rcases e1 : l0.cpu_time with _ | u0 <;>
  rcases e2 : v1.cpu_time with _ | t1 <;>
  rcases e3 : l1.cpu_time with _ | u1 <;>
    simp only [itemCpuTime, e0, e1, e2, e3, except_ok_bind, except_error_bind] at h <;>
    first
    | exact Except.noConfusion h
    | (split_ifs at h <;> injection h with h' <;> subst h' <;>
        exact ⟨by first | exact List.prefix_rfl | exact List.prefix_append _ _,
               by first | exact List.prefix_rfl | exact List.prefix_append _ _⟩)

/-- Any fold of a step that only appends to the message lists keeps
the initial lists as prefixes. -/
theorem foldl_state_appends_only {γ δ : Type}
    (step : (List γ × CompState) → δ → List γ × CompState)
    (hstep : ∀ acc n, acc.2.warnings <+: (step acc n).2.warnings ∧
      acc.2.critical_issues <+: (step acc n).2.critical_issues) :
    ∀ (L : List δ) (acc : List γ × CompState),
      acc.2.warnings <+: (L.foldl step acc).2.warnings ∧
      acc.2.critical_issues <+: (L.foldl step acc).2.critical_issues := by
  intro L
  induction L with
  | nil =>
    intro acc
    exact ⟨List.prefix_rfl, List.prefix_rfl⟩
  | cons n t ih =>
    intro acc
    rw [List.foldl_cons]
    exact ⟨(hstep acc n).1.trans (ih (step acc n)).1,
           (hstep acc n).2.trans (ih (step acc n)).2⟩

/-- Claim C9 (amended): `generate_report` is not a pure rendering
stage — it runs the three comparisons and appends their
classification messages to `warnings`/`critical_issues`.  What does
hold: generation only ever appends, so the prior lists survive as
prefixes of the new state (and report generation from a fresh state is
a deterministic function of the loaded data). -/
theorem c9_report_appends_classification (bfile cfile : String) (bdata cdata : List Bench)
    (s s' : CompState)
    (h : (generate_report bfile cfile bdata cdata s).toOption.map Prod.snd = some s') :
    s.warnings <+: s'.warnings ∧ s.critical_issues <+: s'.critical_issues := by
  unfold generate_report generate_report_lines at h
  simp only [] at h
  rcases hs : compare_safety_overhead bdata cdata (compare_core_performance bdata cdata s).2
    with e | p
  · rw [hs] at h
    simp [except_error_bind, Except.map, Except.toOption] at h
  · rw [hs] at h
    simp only [except_ok_bind, Except.map, Except.toOption] at h
    simp only [Option.map, Option.bind, Option.some.injEq] at h
    have hcore := foldl_state_appends_only (core_step bdata cdata)
      (core_step_appends_only bdata cdata) core_benchmarks ([], s)
    have hsafety := safety_state_appends_only bdata cdata
      (compare_core_performance bdata cdata s).2 p hs
    have hmem := foldl_state_appends_only (memory_step bdata cdata)
      (memory_step_appends_only bdata cdata) memory_benchmarks ([], p.2)
    subst h
    exact ⟨hcore.1.trans (hsafety.1.trans hmem.1),
           hcore.2.trans (hsafety.2.trans hmem.2)⟩

/-- Claim C9 witness: on empty result sets from the fresh state the
report generates successfully and the (empty) lists are preserved. -/
theorem c9_report_appends_classification_witness :
    (generate_report "b" "c" [] [] ⟨[], []⟩).toOption.map Prod.snd =
      some (⟨[], []⟩ : CompState) ∧
    ([] : List String) <+: [] ∧ ([] : List String) <+: [] :=
  ⟨rfl,
   c9_report_appends_classification "b" "c" [] [] ⟨[], []⟩ ⟨[], []⟩ rfl⟩

/-- Claim C9 counterexample: generating the report does not leave the
lists unchanged — on a +20% regression it appends a warning while
rendering, and rendering again from the resulting state duplicates
it (so the second rendering differs). -/
theorem c9_counterexample_render_mutates :
    (generate_report "b" "c" c9_baseline c9_current ⟨[], []⟩).toOption.map
        (fun p => p.2.warnings) = some [c9_warning_message] ∧
    some [c9_warning_message] ≠ some ([] : List String) ∧
    (generate_report "b" "c" c9_baseline c9_current ⟨[c9_warning_message], []⟩).toOption.map
        (fun p => p.2.warnings) = some [c9_warning_message, c9_warning_message] :=
  ⟨rfl, by decide, rfl⟩

/-- Claim C10: once the four safety records are found by name, the
overhead comparator reads `['cpu_time']` unconditionally — on an input
where the records exist but one lacks `cpu_time`, it raises `KeyError`
instead of the section-unavailable outcome — whereas the core
comparator substitutes 0 for a missing `cpu_time`, which the
zero-baseline guard turns into change 0 and severity OK. -/
theorem c10_unchecked_cpu_time_lookup :
    (get_benchmark_by_name kerr_baseline "BM_SafetyLevel_Comparison/0_mean").isSome = true ∧
    (get_benchmark_by_name kerr_baseline "BM_SafetyLevel_Comparison/1_mean").isSome = true ∧
    (get_benchmark_by_name kerr_current "BM_SafetyLevel_Comparison/0_mean").isSome = true ∧
    (get_benchmark_by_name kerr_current "BM_SafetyLevel_Comparison/1_mean").isSome = true ∧
    compare_safety_overhead kerr_baseline kerr_current ⟨[], []⟩ =
      Except.error "KeyError: cpu_time" ∧
    compare_core_performance c10_baseline c10_current ⟨[], []⟩ =
      ([("BM_MakeMove_ShortChain_mean",
         { baseline_time := 0, current_time := 100, change_percent := 0, status := "OK" })],
       ⟨[], []⟩) :=
  ⟨rfl, rfl, rfl, rfl, rfl, by decide⟩

end RatReducible
